import Mathlib

/-!
# Verification of the minecraft-protocol server core

A shallow embedding of the wire codec, framing, compression, identifier
validation and connection state machine of the `minecraft-protocol`
repository (crates `protocol-network` and `protocol-buf`), together with
proofs and refutations of the specification's claims about them.

Modelling conventions:
* Wire bytes are `Nat`s; every byte produced by an encoder is `< 256`.
* Rust machine integers are `Int` (signed view) or `Nat` (unsigned bit
  pattern) with explicit reductions mod `2^32` / `2^64` where the Rust
  code truncates or wraps.  Rust `>>` on a signed value (arithmetic
  shift) is Euclidean division by a power of two, which Lean's `Int`
  division provides (`(-7 : Int) / 2 = -4`).
* `std::io::Cursor<Vec<u8>>` is modelled by `ByteBuf` below, including
  its zero-filling behaviour when the position is past the end and its
  short-read behaviour at EOF.
* `f32` constants that are merely stored and forwarded (the `GameEvent`
  value) are modelled by their IEEE-754 bit pattern (`0.0f32 ↦ 0`).
-/

set_option maxRecDepth 100000

/-! ## Two's-complement helpers -/

/-- Reinterpret the low 32 bits of a natural number as a signed `i32`
(Rust's `as i32` on an unsigned working value). -/
def toSigned32 (n : Nat) : Int :=
  if n % 2^32 < 2^31 then ((n % 2^32 : Nat) : Int) else ((n % 2^32 : Nat) : Int) - 2^32

/-- Reinterpret the low 64 bits of a natural number as a signed `i64`. -/
def toSigned64 (n : Nat) : Int :=
  if n % 2^64 < 2^63 then ((n % 2^64 : Nat) : Int) else ((n % 2^64 : Nat) : Int) - 2^64

/-- The `w`-bit unsigned bit pattern of a signed integer (Rust's
`as u32` / `as u64` casts); `Int.emod` by `2^w` is exactly the
two's-complement reduction. -/
def toUnsigned (w : Nat) (v : Int) : Nat := (v % 2^w).toNat

/-! ## VarInt / VarLong codec — `crates/protocol-network/src/buffer/varnum.rs`

`register_varnum!(VarInt, i32, u32, 5)` and
`register_varnum!(VarLong, i64, u64, 10)`.  Encoding runs on the
unsigned working type (`u32`/`u64`, logical shift); decoding accumulates
into a `u64` and finally truncates to the target type. -/

/-- The `ToNetwork` loop of `register_varnum!`:
`while value >= 0x80 { buf.write(&[(value as u8) | 0x80]); value >>= 7 }
 buf.write(&[value as u8])` on the unsigned working value. -/
def varnumWrite (value : Nat) : List Nat :=
  if 0x80 ≤ value then ((value % 256) ||| 0x80) :: varnumWrite (value / 0x80)
  else [value % 256]
termination_by value
decreasing_by exact Nat.div_lt_self (by omega) (by omega)

/-- `VarInt::to_network`: encode via the `u32` working value. -/
def VarInt.to_network (v : Int) : List Nat := varnumWrite (toUnsigned 32 v)

/-- `VarLong::to_network`: encode via the `u64` working value. -/
def VarLong.to_network (v : Int) : List Nat := varnumWrite (toUnsigned 64 v)

/-- The `FromNetwork` loop of `register_varnum!` (protocol-network):
repeatedly read one byte, accumulate `(byte & 0x7F) << shift` into a
`u64`, stop when the continuation bit is clear.  There is no maximum
length check.  Reading at EOF is `Cursor::read` into a zeroed 1-byte
array, which returns `Ok(0)` and leaves the byte `0`, so the loop breaks
and the accumulator is returned.  The `u64` shift-or is faithful for the
shifts `< 64` exercised here (`<< shift` with `shift ≥ 64` would panic
in a debug build). -/
def varnumReadLoop : List Nat → Nat → Nat → Nat × List Nat
  | [], _, result => (result, [])
  | b :: rest, shift, result =>
      let result' := result ||| (((b &&& 0x7F) <<< shift) % 2^64)
      if b &&& 0x80 = 0 then (result', rest)
      else varnumReadLoop rest (shift + 7) result'

/-- `VarInt::from_network` on a byte list: returns the decoded value
(`result as i32`) and the unconsumed remainder. -/
def VarInt.from_network (bytes : List Nat) : Int × List Nat :=
  let (r, rest) := varnumReadLoop bytes 0 0
  (toSigned32 r, rest)

/-- `VarLong::from_network` on a byte list (`result as i64`). -/
def VarLong.from_network (bytes : List Nat) : Int × List Nat :=
  let (r, rest) := varnumReadLoop bytes 0 0
  (toSigned64 r, rest)

/-- `VarInt::get_size_in_bytes`:
`while value >= 0x80 { size += 1; value >>= 7 } size + 1` on `u32`. -/
def varnumSizeLoop (value : Nat) : Nat :=
  if 0x80 ≤ value then 1 + varnumSizeLoop (value / 0x80) else 1
termination_by value
decreasing_by exact Nat.div_lt_self (by omega) (by omega)

def VarInt.get_size_in_bytes (v : Int) : Nat := varnumSizeLoop (toUnsigned 32 v)

/-! ## ByteBuf — `crates/protocol-network/src/buffer/buffer.rs`

A `Cursor<Vec<u8>>`.  `write` at a position past the end zero-fills the
gap (std `Cursor<Vec<u8>>` semantics); `read` returns at most the
remaining bytes and leaves the rest of the caller's zeroed scratch
buffer untouched. -/

structure ByteBuf where
  data : List Nat
  pos : Nat
deriving Repr, DecidableEq

def ByteBuf.new_empty : ByteBuf := ⟨[], 0⟩

/-- `Write for ByteBuf` (through the cursor): zero-fill up to `pos` if
needed, overwrite from `pos`, extend past the end, advance `pos`. -/
def ByteBuf.write (b : ByteBuf) (bs : List Nat) : ByteBuf :=
  let padded := b.data ++ List.replicate (b.pos - b.data.length) 0
  ⟨padded.take b.pos ++ bs ++ padded.drop (b.pos + bs.length), b.pos + bs.length⟩

def ByteBuf.write_varint (b : ByteBuf) (v : Int) : ByteBuf := b.write (VarInt.to_network v)

/-- `ToNetwork for bool` — a single byte 0/1. -/
def ByteBuf.write_bool (b : ByteBuf) (x : Bool) : ByteBuf := b.write [if x then 1 else 0]

/-- `ToNetwork for String` — VarInt byte length, then the UTF-8 bytes
(the string is modelled by its byte list). -/
def ByteBuf.write_string (b : ByteBuf) (s : List Nat) : ByteBuf :=
  (b.write_varint (s.length : Int)).write s

/-- An NBT document, modelled by the byte list `simdnbt`'s
`write_unnamed` produces for it. -/
structure Nbt where
  bytes : List Nat
deriving Repr, DecidableEq

/-- `ToNetwork for Nbt` (`buffer/types.rs`):
`self.write_unnamed(buf.get_mut()); buf.set_position(buf.len() as u64 + 1);`
— appends directly to the underlying `Vec` (bypassing the cursor) and
then sets the cursor position one **past** the new end. -/
def ByteBuf.write_nbt (b : ByteBuf) (n : Nbt) : ByteBuf :=
  ⟨b.data ++ n.bytes, (b.data.length + n.bytes.length) + 1⟩

/-- `RegistryEntry` (`packet/registry.rs`), with the entry id as its
UTF-8 bytes. -/
structure RegistryEntryBytes where
  entry_id : List Nat
  has_data : Bool
  data : Nbt

/-- `ToNetwork for RegistryEntry`: id string, `has_data` bool, and the
NBT only when `has_data`. -/
def RegistryEntryBytes.to_network (e : RegistryEntryBytes) (b : ByteBuf) : ByteBuf :=
  let b := b.write_string e.entry_id
  let b := b.write_bool e.has_data
  if e.has_data then b.write_nbt e.data else b

/-- `ToNetwork for Vec<T>`: VarInt count, then each element. -/
def ByteBuf.write_vec (b : ByteBuf) (enc : α → ByteBuf → ByteBuf) (xs : List α) : ByteBuf :=
  xs.foldl (fun b x => enc x b) (b.write_varint (xs.length : Int))

/-- `RegistryDataPacket` at byte level. -/
structure RegistryDataPacketBytes where
  registry_id : List Nat
  entries : List RegistryEntryBytes

def RegistryDataPacketBytes.to_network (p : RegistryDataPacketBytes) (b : ByteBuf) : ByteBuf :=
  (b.write_string p.registry_id).write_vec RegistryEntryBytes.to_network p.entries

/-- `Vec::rotate_right(k)` (for `k ≤ len`). -/
def rotateRightList (l : List Nat) (k : Nat) : List Nat :=
  l.drop (l.length - k) ++ l.take (l.length - k)

/-- `PacketSender::send_packet` for `MinecraftClient`
(`tcp/client/connection.rs`): write the id VarInt and the packet fields
into a fresh buffer, append the VarInt of the accumulated length, and
rotate it to the front; the result is what is written to the socket. -/
def send_packet (id : Int) (encodePacket : ByteBuf → ByteBuf) : List Nat :=
  let buf := ByteBuf.new_empty.write_varint id
  let buf := encodePacket buf
  let packet_length : Int := (buf.data.length : Int)
  let buf := buf.write_varint packet_length
  rotateRightList buf.data (VarInt.get_size_in_bytes packet_length)

/-- Concrete `RegistryDataPacket` used to exercise the NBT path: one
entry with a two-byte NBT document. -/
def registryDataExample : RegistryDataPacketBytes :=
  ⟨[97], [⟨[98], true, ⟨[10, 0]⟩⟩]⟩

/-! ## Position — `crates/protocol-network/src/position.rs`

`to_network` writes the `i64`
`((x & 0x3FFFFFF) << 38) | ((z & 0x3FFFFFF) << 12) | (y & 0xFFF)`:
each mask is the two's-complement residue (`v & 0x3FFFFFF = v mod 2^26`,
`v & 0xFFF = v mod 2^12`), the shifted fields occupy disjoint bit
ranges, so the or is a sum, and the resulting 64-bit pattern is read as
a signed `i64`.  `from_network` reads the `i64` back with arithmetic
shifts: `x = v >> 38`, `y = v << 52 >> 52`, `z = v << 26 >> 38`. -/

structure Position where
  x : Int
  y : Int
  z : Int
deriving Repr, DecidableEq

def Position.to_network (p : Position) : Int :=
  toSigned64 ((p.x % 2^26).toNat * 2^38 + (p.z % 2^26).toNat * 2^12 + (p.y % 2^12).toNat)

/-- `value << k` on an `i64`: wrap the 64-bit pattern, shift, truncate
to 64 bits, reinterpret as signed. -/
def shlWrap64 (v : Int) (k : Nat) : Int := toSigned64 ((v % 2^64).toNat * 2^k)

/-- `FromNetwork for Position`; `Int` division by a positive power of
two is exactly the arithmetic right shift. -/
def Position.from_network (value : Int) : Position :=
  { x := value / 2^38
  , y := shlWrap64 value 52 / 2^52
  , z := shlWrap64 value 26 / 2^38 }

/-! ## Identifier — `crates/protocol-network/src/identifier.rs`

`NAMESPACE_REGEX = ^[a-z0-9.-_]+` and `PATH_REGEX = ^[a-z0-9.-_/]+`.
Inside a character class `.-_` is the **range** U+002E ('.') to U+005F
('_'), which contains '/', the digits, ':', '@', the uppercase letters
and more; '/' (U+002F) lies inside it, so both classes denote the same
set.  Neither pattern is anchored at the end, so `Regex::is_match`
holds iff some nonempty prefix matches, i.e. iff the string's first
character is in the class. -/

/-- The character class `[a-z0-9.-_]` as the regex engine reads it. -/
def identifierClassChar (c : Char) : Bool :=
  ('a' ≤ c && c ≤ 'z') || ('0' ≤ c && c ≤ '9') || ('.' ≤ c && c ≤ '_')

/-- `Regex::is_match` for a pattern of the form `^[class]+`. -/
def regexIsMatchStartPlus (cls : Char → Bool) (s : String) : Bool :=
  match s.data with
  | [] => false
  | c :: _ => cls c

/-- `Identifier::new`: `None` iff one of the two regexes fails to
match. -/
def Identifier.new (ns path : String) : Option (String × String) :=
  if ¬ regexIsMatchStartPlus identifierClassChar ns
      ∨ ¬ regexIsMatchStartPlus identifierClassChar path then none
  else some (ns, path)

/-! ## protocol-buf compression — `crates/protocol-buf/src/compression.rs`

`encode_varint` (types.rs) and the `register_varnum!` `ToNetwork` /
`len` loops (macros.rs) share the same do-while shape: emit the low 7
bits, shift by 7, set the continuation bit iff the shifted value is
nonzero, stop when it is zero. -/

/-- The shared do-while loop on the (nonnegative / unsigned) working
value. -/
def varnumLoopEncode (v : Nat) : List Nat :=
  let byte := v % 128
  let v' := v / 128
  if v' = 0 then [byte] else (byte ||| 0x80) :: varnumLoopEncode v'
termination_by v
decreasing_by exact Nat.div_lt_self (by omega) (by omega)

/-- `encode_varint` (protocol-buf `types.rs`).  On a negative `i32` the
Rust loop never terminates (the arithmetic shift fixes at `-1`);
`compress` only ever passes nonnegative lengths, modelled via
`Int.toNat`. -/
def encode_varint (value : Int) : List Nat := varnumLoopEncode value.toNat

/-- `VarInt::to_network` of the protocol-buf crate (logical shifts on
the `u32` working value). -/
def VarIntBuf.to_network (v : Int) : List Nat := varnumLoopEncode (toUnsigned 32 v)

/-- `VarInt::len` of the protocol-buf crate:
`loop { value >>= 7; len += 1; if value == 0 break }` on `u32`. -/
def varnumLenLoop (v : Nat) : Nat :=
  let v' := v / 128
  if v' = 0 then 1 else 1 + varnumLenLoop v'
termination_by v
decreasing_by exact Nat.div_lt_self (by omega) (by omega)

def VarIntBuf.len (v : Int) : Nat := varnumLenLoop (toUnsigned 32 v)

/-- `ZlibCompression::compress`.  `deflate` abstracts
`flate2::ZlibEncoder` (whose output no claim inspects).  The packet
buffer carries the payload bytes (`buffer.get_ref()`) and the packet id
separately.  The final back-fill
`result[..packet_length_encoded.len()].copy_from_slice(..)` overwrites
the first `len(encode_varint(packet_length))` bytes of `result`. -/
def ZlibCompression.compress (deflate : List Nat → List Nat)
    (packet_id : Int) (buffer_data : List Nat) (threshold : Int) : List Nat :=
  let result₁ : List Nat :=
    encode_varint 0 ++
      (if (buffer_data.length : Int) ≥ threshold then
        encode_varint ((VarIntBuf.len packet_id + buffer_data.length : Nat) : Int) ++
          deflate (VarIntBuf.to_network packet_id ++ buffer_data)
      else
        encode_varint 0 ++ VarIntBuf.to_network packet_id ++ buffer_data)
  let packet_length : Int := ((result₁.length - (encode_varint 0).length : Nat) : Int)
  let enc := encode_varint packet_length
  enc ++ result₁.drop enc.length

/-! ## Connection state machine — `connection.rs`, `v1_21.rs`,
`packet/macros.rs`, `packet/result.rs`, `packet/registry.rs` -/

inductive ConnectionState where
  | Handshake | Status | Login | Transfer | Configuration | Play
deriving Repr, DecidableEq

def ConnectionState.get_id : ConnectionState → Int
  | .Handshake => 0
  | .Status => 1
  | .Login => 2
  | .Transfer => 3
  | .Configuration => 4
  | .Play => 5

inductive PacketDirection where
  | Serverbound | Clientbound
deriving Repr, DecidableEq

/-- `MinecraftClient`'s protocol-relevant state: the `connected` flag
and the current `ConnectionState` (the socket handle is external). -/
structure MinecraftClient where
  connected : Bool
  state : ConnectionState
deriving Repr, DecidableEq

/-! ### Field decoding (reads from a packet's data bytes)

Each reader consumes from a byte list and returns the remainder, with
`Cursor::read`'s short-read behaviour: missing bytes are read as the
zeroes of the caller's scratch buffer. -/

/-- Read `n` bytes; at EOF the untouched scratch bytes stay `0`. -/
def readBytesN (n : Nat) (bs : List Nat) : List Nat × List Nat :=
  (bs.take n ++ List.replicate (n - bs.length) 0, bs.drop n)

/-- An `i32` cast to `usize` (sign-extended to 64 bits, reinterpreted). -/
def usizeOfI32 (v : Int) : Nat := (v % 2^64).toNat

/-- `FromNetwork for String`: VarInt length, then that many bytes.
(`String::from_utf8(..).unwrap()` panics on invalid UTF-8; no claim
exercises that path, so the reader yields the raw bytes.) -/
def readStringBytes (bs : List Nat) : List Nat × List Nat :=
  let (len, r) := VarInt.from_network bs
  readBytesN (usizeOfI32 len) r

def beValue (bytes : List Nat) : Nat := bytes.foldl (fun acc b => acc * 256 + b) 0

/-- `FromNetwork for u16`: two big-endian bytes. -/
def readU16 (bs : List Nat) : Nat × List Nat :=
  let (b, r) := readBytesN 2 bs
  (beValue b, r)

/-- `FromNetwork for i64`: eight big-endian bytes, signed. -/
def readI64 (bs : List Nat) : Int × List Nat :=
  let (b, r) := readBytesN 8 bs
  (toSigned64 (beValue b), r)

/-- `FromNetwork for Uuid`: sixteen raw bytes (value as a 128-bit
pattern). -/
def readUuid (bs : List Nat) : Nat × List Nat :=
  let (b, r) := readBytesN 16 bs
  (beValue b, r)

/-- `FromNetwork for ConnectionState`: a VarInt, unknown ids collapse
to `Handshake`. -/
def ConnectionState.from_network (bs : List Nat) : ConnectionState × List Nat :=
  let (v, r) := VarInt.from_network bs
  (if v = 0 then .Handshake
   else if v = 1 then .Status
   else if v = 2 then .Login
   else if v = 3 then .Transfer
   else if v = 4 then .Configuration
   else if v = 5 then .Play
   else .Handshake, r)

/-! ### Serverbound packet shapes (`register_proto!` in `v1_21.rs`) -/

structure HandshakePacket where
  protocol_version : Int
  server_address : List Nat
  server_port : Nat
  next_state : ConnectionState

def HandshakePacket.from_network (bs : List Nat) : HandshakePacket × List Nat :=
  let (protocol_version, bs) := VarInt.from_network bs
  let (server_address, bs) := readStringBytes bs
  let (server_port, bs) := readU16 bs
  let (next_state, bs) := ConnectionState.from_network bs
  (⟨protocol_version, server_address, server_port, next_state⟩, bs)

structure PingRequestPacket where
  payload : Int

def PingRequestPacket.from_network (bs : List Nat) : PingRequestPacket × List Nat :=
  let (payload, bs) := readI64 bs
  (⟨payload⟩, bs)

structure LoginStartPacket where
  username : List Nat
  uuid : Nat

def LoginStartPacket.from_network (bs : List Nat) : LoginStartPacket × List Nat :=
  let (username, bs) := readStringBytes bs
  let (uuid, bs) := readUuid bs
  (⟨username, uuid⟩, bs)

structure ConfigurationDisconnectPacket where
  reason : List Nat

def ConfigurationDisconnectPacket.from_network (bs : List Nat) :
    ConfigurationDisconnectPacket × List Nat :=
  let (reason, bs) := readStringBytes bs
  (⟨reason⟩, bs)

/-! ### Clientbound emissions

The packets the handlers construct and pass to `send_packet`,
recorded at field level.  `RegistryData` entries are recorded as
`(entry_id, has_data)` pairs; their NBT payloads are exercised by the
byte-level model above.  The `GameEvent` `value: f32` is recorded by
its IEEE-754 bit pattern. -/

/-- `LoginPlayPacket` (`v1_21.rs`), fields in declaration order. -/
structure LoginPlayPacket where
  entity_id : Int
  is_hardcore : Bool
  dimension_names : List String
  max_players : Int
  view_distance : Int
  simulation_distance : Int
  reduced_debug_info : Bool
  enable_respawn_screen : Bool
  do_limited_crafting : Bool
  dimension_type : Int
  dimension_name : String
  hashed_seed : Int
  game_mode : Nat
  previous_game_mode : Int
  is_debug : Bool
  is_flat : Bool
  has_death_location : Bool
  death_dimension_name : Option String
  death_location : Option Position
  portal_cooldown : Int
  enforces_secure_chat : Bool
deriving Repr, DecidableEq

inductive SentPacket where
  | statusResponse (version_name : String) (protocol : Int) (max online : Int)
      (description : String)
  | pingResponse (payload : Int)
  | loginSuccess (uuid : Nat) (username : List Nat)
      (properties : List Unit) (strict_error_handling : Bool)
  | registryData (registry_id : String) (entries : List (String × Bool))
  | finishConfiguration
  | loginPlay (p : LoginPlayPacket)
  | gameEvent (event : Nat) (value_bits : Nat)
deriving Repr, DecidableEq

/-! ### Handlers (`Handleable` impls in `v1_21.rs`) -/

/-- `Handleable for HandshakePacket`: adopt `next_state` when it is
`Status`, `Login` or `Transfer`; otherwise do nothing. -/
def HandshakePacket.handle (p : HandshakePacket) (c : MinecraftClient) :
    MinecraftClient × List SentPacket :=
  match p.next_state with
  | .Status | .Login | .Transfer => ({ c with state := p.next_state }, [])
  | _ => (c, [])

/-- `Handleable for StatusRequestPacket`: reply with the fixed
`StatusResponse::new("1.20.6", 766, 20, 0, "Wowie a Rust Status Request!")`. -/
def StatusRequestPacket.handle (c : MinecraftClient) :
    MinecraftClient × List SentPacket :=
  (c, [.statusResponse "1.20.6" 766 20 0 "Wowie a Rust Status Request!"])

/-- `Handleable for PingRequestPacket`: echo the payload in a
`PingResponsePacket`. -/
def PingRequestPacket.handle (p : PingRequestPacket) (c : MinecraftClient) :
    MinecraftClient × List SentPacket :=
  (c, [.pingResponse p.payload])

/-- `Handleable for LoginStartPacket`: reply with `LoginSuccessPacket`
echoing uuid and username, empty properties,
`strict_error_handling: false`. -/
def LoginStartPacket.handle (p : LoginStartPacket) (c : MinecraftClient) :
    MinecraftClient × List SentPacket :=
  (c, [.loginSuccess p.uuid p.username [] false])

/-- `send_registry_packets` (`packet/registry.rs`): the eight
`RegistryDataPacket`s in source order, then `FinishConfigurationPacket`. -/
def send_registry_packets : List SentPacket :=
  [ .registryData "minecraft:worldgen/biome" [("minecraft:badlands", true)]
  , .registryData "minecraft:chat_type" [("minecraft:chat", true)]
  , .registryData "minecraft:trim_pattern" [("minecraft:coast", true)]
  , .registryData "minecraft:trim_material" [("minecraft:amethyst", true)]
  , .registryData "minecraft:wolf_variant" [("minecraft:ashen", true)]
  , .registryData "minecraft:dimension_type" [("minecraft:overworld", true)]
  , .registryData "minecraft:damage_type" [("minecraft:in_fire", true)]
  , .registryData "minecraft:banner_pattern" [("minecraft:base", true)]
  , .finishConfiguration ]

/-- `Handleable for LoginAcknowledgedPacket`: enter `Configuration`,
then emit the registry burst. -/
def LoginAcknowledgedPacket.handle (c : MinecraftClient) :
    MinecraftClient × List SentPacket :=
  ({ c with state := .Configuration }, send_registry_packets)

/-- The `LoginPlayPacket` literal the
`AcknowledgeFinishConfigurationPacket` handler constructs. -/
def loginPlayValue : LoginPlayPacket :=
  { entity_id := 1
  , is_hardcore := false
  , dimension_names := ["minecraft:overworld"]
  , max_players := 20
  , view_distance := 12
  , simulation_distance := 12
  , reduced_debug_info := false
  , enable_respawn_screen := false
  , do_limited_crafting := false
  , dimension_type := 0
  , dimension_name := "minecraft:overworld"
  , hashed_seed := 0
  , game_mode := 0
  , previous_game_mode := -1
  , is_debug := false
  , is_flat := false
  , has_death_location := false
  , death_dimension_name := none
  , death_location := none
  , portal_cooldown := 0
  , enforces_secure_chat := false }

/-- `Handleable for AcknowledgeFinishConfigurationPacket`: enter
`Play`, then emit `LoginPlay` and `GameEvent { event: 13, value: 0.0 }`. -/
def AcknowledgeFinishConfigurationPacket.handle (c : MinecraftClient) :
    MinecraftClient × List SentPacket :=
  ({ c with state := .Play }, [.loginPlay loginPlayValue, .gameEvent 13 0])

/-! ### Dispatch (`register_proto!` in `packet/macros.rs`)

The generated `handle_packet` matches `(*packet.packet_id, client.state)`
against the registered `(id, state)` pairs in declaration order, each
arm guarded by `direction == Serverbound`; an arm whose guard fails
falls through.  An unmatched packet is only logged. -/

inductive PacketTag where
  | handshake | statusRequest | statusResponse | pingRequest | pingResponse
  | loginStart | loginSuccess | loginAcknowledged | registryData
  | configurationDisconnect | finishConfiguration
  | acknowledgeFinishConfiguration | loginPlay | gameEvent
deriving Repr, DecidableEq

/-- The registrations of `register_proto!` in `v1_21.rs`, in source
order. -/
def packetRegistrations : List (Int × ConnectionState × PacketDirection × PacketTag) :=
  [ (0x00, .Handshake, .Serverbound, .handshake)
  , (0x00, .Status, .Serverbound, .statusRequest)
  , (0x00, .Status, .Clientbound, .statusResponse)
  , (0x01, .Status, .Serverbound, .pingRequest)
  , (0x01, .Status, .Clientbound, .pingResponse)
  , (0x00, .Login, .Serverbound, .loginStart)
  , (0x02, .Login, .Clientbound, .loginSuccess)
  , (0x03, .Login, .Serverbound, .loginAcknowledged)
  , (0x07, .Configuration, .Clientbound, .registryData)
  , (0x02, .Configuration, .Serverbound, .configurationDisconnect)
  , (0x03, .Configuration, .Clientbound, .finishConfiguration)
  , (0x03, .Configuration, .Serverbound, .acknowledgeFinishConfiguration)
  , (0x2B, .Play, .Clientbound, .loginPlay)
  , (0x22, .Play, .Clientbound, .gameEvent) ]

/-- Decode the matched packet from the frame's data bytes and run its
handler.  Clientbound tags are unreachable through dispatch (their
direction guard fails); their `Handleable` impls are empty. -/
def dispatchTag (tag : PacketTag) (bytes : List Nat) (c : MinecraftClient) :
    MinecraftClient × List SentPacket :=
  match tag with
  | .handshake => (HandshakePacket.from_network bytes).1.handle c
  | .statusRequest => StatusRequestPacket.handle c
  | .pingRequest => (PingRequestPacket.from_network bytes).1.handle c
  | .loginStart => (LoginStartPacket.from_network bytes).1.handle c
  | .loginAcknowledged => LoginAcknowledgedPacket.handle c
  | .configurationDisconnect => (c, [])
  | .acknowledgeFinishConfiguration => AcknowledgeFinishConfigurationPacket.handle c
  | _ => (c, [])

/-- The generated `handle_packet`: first registration whose id and
state match and whose direction is `Serverbound` wins; otherwise the
packet is logged as unknown and nothing happens. -/
def handle_packet (packet_id : Int) (packet_data : List Nat) (client : MinecraftClient) :
    MinecraftClient × List SentPacket :=
  match packetRegistrations.find? (fun e =>
      e.1 == packet_id && e.2.1 == client.state && e.2.2.1 == PacketDirection.Serverbound) with
  | some e => dispatchTag e.2.2.2 packet_data client
  | none => (client, [])

/-! ## Helper lemmas -/

theorem lor_mul_pow (s a b : Nat) (h : a < 2^s) : a ||| b * 2^s = a + b * 2^s := by
  induction s generalizing a b with
  | zero => interval_cases a; simp
  | succ s ih =>
    have ha := Nat.bit_decomp a
    rw [← ha]
    have h2 : b * 2^(s+1) = Nat.bit false (b * 2^s) := by
      simp [Nat.bit_val]; ring
    rw [h2, Nat.lor_bit]
    have hlt : a.div2 < 2^s := by
      rw [Nat.div2_val]
      omega
    rw [ih a.div2 b hlt]
    simp [Nat.bit_val, Bool.or_false]
    ring

set_option maxRecDepth 10000 in
theorem contByte_and127 : ∀ x < 256, (x ||| 128) &&& 127 = x % 128 := by decide

set_option maxRecDepth 10000 in
theorem contByte_and128 : ∀ x < 256, (x ||| 128) &&& 128 = 128 := by decide

theorem finByte_and : ∀ x < 128, x &&& 127 = x ∧ x &&& 128 = 0 := by decide

/-- Decoding the freshly encoded working value `w` starting at byte
position `shift/7` with accumulator `acc` adds `w * 2^shift` to the
accumulator and consumes exactly the encoding. -/
theorem varnumReadLoop_varnumWrite (w : Nat) :
    ∀ (rest : List Nat) (shift acc : Nat),
      acc < 2^shift → w * 2^shift < 2^64 → (1 ≤ w ∨ shift = 0) →
      varnumReadLoop (varnumWrite w ++ rest) shift acc = (acc + w * 2^shift, rest) := by
  induction w using varnumWrite.induct with
  | case1 w hw ih =>
    intro rest shift acc hacc hbound _
    rw [varnumWrite, if_pos hw]
    have h256 : w % 256 < 256 := Nat.mod_lt _ (by omega)
    have hand127 : ((w % 256) ||| 128) &&& 127 = w % 128 := by
      rw [contByte_and127 _ h256]
      omega
    have hand128 : ((w % 256) ||| 128) &&& 128 = 128 := contByte_and128 _ h256
    have hmodle : (w % 128) * 2^shift < 2^64 :=
      lt_of_le_of_lt (Nat.mul_le_mul_right _ (Nat.mod_le w 128)) hbound
    rw [List.cons_append, varnumReadLoop]
    simp only [hand127, hand128, Nat.shiftLeft_eq]
    rw [if_neg (by omega), Nat.mod_eq_of_lt hmodle, lor_mul_pow _ _ _ hacc]
    have hpow : 2^(shift + 7) = 2^shift * 128 := by rw [pow_add]; norm_num
    have hdivmul : (w / 128) * 128 ≤ w := Nat.div_mul_le_self w 128
    have hih := ih rest (shift + 7) (acc + (w % 128) * 2^shift)
      (by
        have : (w % 128) * 2^shift ≤ 127 * 2^shift :=
          Nat.mul_le_mul_right _ (by omega)
        omega)
      (by
        calc w / 128 * 2^(shift + 7) = (w / 128) * 128 * 2^shift := by rw [hpow]; ring
        _ ≤ w * 2^shift := Nat.mul_le_mul_right _ hdivmul
        _ < 2^64 := hbound)
      (Or.inl (by omega))
    have hsplit : w % 128 + 128 * (w / 128) = w := Nat.mod_add_div w 128
    have hfinal : acc + w % 128 * 2^shift + w / 128 * 2^(shift + 7) = acc + w * 2^shift := by
      rw [hpow]
      calc acc + w % 128 * 2^shift + w / 128 * (2^shift * 128)
          = acc + (w % 128 + 128 * (w / 128)) * 2^shift := by ring
        _ = acc + w * 2^shift := by rw [hsplit]
    rw [hih, hfinal]
  | case2 w hw =>
    intro rest shift acc hacc hbound _
    rw [varnumWrite, if_neg hw]
    push_neg at hw
    rw [Nat.mod_eq_of_lt (by omega)]
    obtain ⟨ha127, ha128⟩ := finByte_and w (by omega)
    rw [List.cons_append, varnumReadLoop]
    simp only [ha127, ha128, Nat.shiftLeft_eq]
    rw [if_pos trivial, Nat.mod_eq_of_lt hbound, lor_mul_pow _ _ _ hacc, List.nil_append]

/-- Round trip at the unsigned working level. -/
theorem varnum_roundtrip (u : Nat) (h : u < 2^64) :
    varnumReadLoop (varnumWrite u) 0 0 = (u, []) := by
  have := varnumReadLoop_varnumWrite u [] 0 0 (by norm_num) (by simpa) (Or.inr rfl)
  simpa using this

/-! ## Claim C2 — VarInt/VarLong round-trip -/

/-- **C2.** For every `i32` value `v`, decoding the bytes of
`VarInt(v).to_network` yields `v` again, and `VarLong` round-trips over
every `i64` (so in particular over the boundary values `MIN`, `-1`,
`0`, `1`, `MAX`); moreover `VarInt(-1)` encodes to the five bytes
`ff ff ff ff 0f` and decoding those five bytes yields `-1`. -/
theorem c2_varnum_roundtrip (v w : Int) (hv₁ : -(2^31) ≤ v) (hv₂ : v < 2^31)
    (hw₁ : -(2^63) ≤ w) (hw₂ : w < 2^63) :
    VarInt.from_network (VarInt.to_network v) = (v, []) ∧
    VarLong.from_network (VarLong.to_network w) = (w, []) ∧
    VarInt.to_network (-1) = [0xff, 0xff, 0xff, 0xff, 0x0f] ∧
    VarInt.from_network [0xff, 0xff, 0xff, 0xff, 0x0f] = (-1, []) := by
  refine ⟨?_, ?_, ?_, by decide⟩
  · have h1 := varnum_roundtrip (toUnsigned 32 v) (by unfold toUnsigned; omega)
    have h2 : toSigned32 (toUnsigned 32 v) = v := by
      unfold toSigned32 toUnsigned
      split_ifs <;> omega
    simp [VarInt.from_network, VarInt.to_network, h1, h2]
  · have h1 := varnum_roundtrip (toUnsigned 64 w) (by unfold toUnsigned; omega)
    have h2 : toSigned64 (toUnsigned 64 w) = w := by
      unfold toSigned64 toUnsigned
      split_ifs <;> omega
    simp [VarLong.from_network, VarLong.to_network, h1, h2]
  · have h : toUnsigned 32 (-1) = 4294967295 := by decide
    rw [VarInt.to_network, h]
    simp [varnumWrite]

/-- Witness for C2 at `v = 3`, `w = -1`. -/
theorem c2_varnum_roundtrip_witness :
    VarInt.from_network (VarInt.to_network 3) = (3, []) ∧
    VarLong.from_network (VarLong.to_network (-1)) = (-1, []) := by
  have h := c2_varnum_roundtrip 3 (-1) (by norm_num) (by norm_num) (by norm_num) (by norm_num)
  exact ⟨h.1, h.2.1⟩

/-! ## Claim C3 — over-long VarInt wire forms -/

/-- **C3 counterexample.** The claim says a VarInt wire form longer
than 5 bytes makes the decoder stop at the maximum and signal a fatal
`VarIntOverflow`.  The protocol-network decoder has no length check at
all: it consumes the full 6-byte form `80 80 80 80 80 01`, leaves no
remainder, and returns the value `0` (the set bit lands at position 35
and is truncated away by `as i32`) — no error, no termination. -/
theorem c3_no_overflow_check_counterexample :
    VarInt.from_network [0x80, 0x80, 0x80, 0x80, 0x80, 0x01] = (0, []) := by decide

/-- **C3 amended.** Decoding a VarInt whose wire form exceeds 5 bytes
is not detected: for any 6-byte form (five continuation bytes, then a
terminating byte) the decoder consumes all six bytes and returns
normally; no `VarIntOverflow` is signalled and the connection
continues. -/
theorem c3_decoder_consumes_past_max (b₀ b₁ b₂ b₃ b₄ b₅ : Nat)
    (h₀ : b₀ &&& 0x80 ≠ 0) (h₁ : b₁ &&& 0x80 ≠ 0) (h₂ : b₂ &&& 0x80 ≠ 0)
    (h₃ : b₃ &&& 0x80 ≠ 0) (h₄ : b₄ &&& 0x80 ≠ 0) (h₅ : b₅ &&& 0x80 = 0) :
    (VarInt.from_network [b₀, b₁, b₂, b₃, b₄, b₅]).2 = [] := by
  simp [VarInt.from_network, varnumReadLoop, h₀, h₁, h₂, h₃, h₄, h₅]

/-- Witness for the amended C3 at the 6-byte form `80 80 80 80 80 01`. -/
theorem c3_decoder_consumes_past_max_witness :
    (VarInt.from_network [0x80, 0x80, 0x80, 0x80, 0x80, 0x01]).2 = [] :=
  c3_decoder_consumes_past_max 0x80 0x80 0x80 0x80 0x80 0x01
    (by decide) (by decide) (by decide) (by decide) (by decide) (by decide)

/-! ## Claim C4 — Login → Configuration → Play emission sequence -/

/-- **C4.** Handling `LoginAcknowledged` (id 0x03) in the `Login` state
moves the connection to `Configuration` and emits exactly the eight
`RegistryData` frames in the order worldgen/biome, chat_type,
trim_pattern, trim_material, wolf_variant, dimension_type, damage_type,
banner_pattern, followed by one `FinishConfiguration`; handling
`AcknowledgeFinishConfiguration` (id 0x03) in `Configuration` then
moves it to `Play` and emits `LoginPlay` (with
`has_death_location = false` and both optional trailer fields absent)
followed by `GameEvent { event: 13, value: 0.0 }`. -/
theorem c4_configuration_sequence :
    handle_packet 0x03 [] ⟨true, .Login⟩ =
      (⟨true, .Configuration⟩,
        [ .registryData "minecraft:worldgen/biome" [("minecraft:badlands", true)]
        , .registryData "minecraft:chat_type" [("minecraft:chat", true)]
        , .registryData "minecraft:trim_pattern" [("minecraft:coast", true)]
        , .registryData "minecraft:trim_material" [("minecraft:amethyst", true)]
        , .registryData "minecraft:wolf_variant" [("minecraft:ashen", true)]
        , .registryData "minecraft:dimension_type" [("minecraft:overworld", true)]
        , .registryData "minecraft:damage_type" [("minecraft:in_fire", true)]
        , .registryData "minecraft:banner_pattern" [("minecraft:base", true)]
        , .finishConfiguration ]) ∧
    handle_packet 0x03 [] ⟨true, .Configuration⟩ =
      (⟨true, .Play⟩, [.loginPlay loginPlayValue, .gameEvent 13 0]) ∧
    loginPlayValue.has_death_location = false ∧
    loginPlayValue.death_dimension_name = none ∧
    loginPlayValue.death_location = none :=
  ⟨rfl, rfl, rfl, rfl, rfl⟩

/-! ## Claim C5 — Handshake next_state handling -/

/-- **C5 counterexample.** The claim says `next_state = Transfer` is
treated identically to `Login`.  Feeding the handshake frame
`(protocol 0, empty address, port 0, next_state 3 = Transfer)` through
dispatch in the `Handshake` state leaves the connection in the
`Transfer` state, not `Login`. -/
theorem c5_transfer_not_login_counterexample :
    (handle_packet 0x00 [0, 0, 0, 0, 3] ⟨true, .Handshake⟩).1.state ≠
      ConnectionState.Login := by decide

/-- **C5 amended.** The handshake handler adopts `next_state` verbatim
for `Status`, `Login` **and `Transfer`** (so `Transfer` yields the
`Transfer` state, not `Login`); for every other `next_state`
(`Handshake`, `Configuration`, `Play`) the state is left unchanged and
no error is raised, and in every case nothing is sent. -/
theorem c5_handshake_transitions (p : HandshakePacket) (c : MinecraftClient) :
    (p.next_state = .Status → p.handle c = ({ c with state := .Status }, [])) ∧
    (p.next_state = .Login → p.handle c = ({ c with state := .Login }, [])) ∧
    (p.next_state = .Transfer → p.handle c = ({ c with state := .Transfer }, [])) ∧
    ((p.next_state = .Handshake ∨ p.next_state = .Configuration ∨ p.next_state = .Play) →
      p.handle c = (c, [])) := by
  refine ⟨fun h => ?_, fun h => ?_, fun h => ?_, fun h => ?_⟩
  · simp [HandshakePacket.handle, h]
  · simp [HandshakePacket.handle, h]
  · simp [HandshakePacket.handle, h]
  · rcases h with h | h | h <;> simp [HandshakePacket.handle, h]

/-- Witness for the amended C5: a handshake with `next_state =
Transfer` in the initial state ends in `Transfer`. -/
theorem c5_handshake_transitions_witness :
    HandshakePacket.handle ⟨0, [], 0, .Transfer⟩ ⟨true, .Handshake⟩ =
      (⟨true, .Transfer⟩, []) :=
  (c5_handshake_transitions ⟨0, [], 0, .Transfer⟩ ⟨true, .Handshake⟩).2.2.1 rfl

/-! ## Claim C8 — unknown packets are discarded -/

/-- **C8.** For every inbound frame whose `(packet_id, state)` pair has
no `Serverbound` registration in the dispatch table, `handle_packet`
leaves the client record (state and connected flag) unchanged and sends
nothing; the read loop then simply continues with the next packet. -/
theorem c8_unknown_packet_ignored (packet_id : Int) (bytes : List Nat)
    (c : MinecraftClient)
    (h : packetRegistrations.find? (fun e =>
        e.1 == packet_id && e.2.1 == c.state &&
          e.2.2.1 == PacketDirection.Serverbound) = none) :
    handle_packet packet_id bytes c = (c, []) := by
  unfold handle_packet
  rw [h]

/-- Witness for C8: id 0x05 has no serverbound registration in the
`Play` state. -/
theorem c8_unknown_packet_ignored_witness :
    handle_packet 0x05 [] ⟨true, .Play⟩ = (⟨true, .Play⟩, []) :=
  c8_unknown_packet_ignored 0x05 [] ⟨true, .Play⟩ (by decide)

/-! ## Claim C9 — Identifier validation -/

/-- **C9.** The claim says `Identifier::new` returns `Some` exactly
when both components consist only of characters from `[a-z0-9._-]`
(path also allowing `/`), and `None` whenever the namespace contains
`/` or either component has a character outside that set.  The actual
regexes are unanchored at the end and their class `.-_` is the
character range U+002E–U+005F, so `new("A!", "B:")` (uppercase, `!`,
`:`) and `new("a/b", "c")` (`/` in the namespace) are accepted, while
`new("-", "a")` — `-` being outside the accidental range — is
rejected. -/
theorem c9_identifier_regex_bug :
    Identifier.new "A!" "B:" = some ("A!", "B:") ∧
    Identifier.new "a/b" "c" = some ("a/b", "c") ∧
    Identifier.new "-" "a" = none := by decide

/-! ## Claim C10 — ping echo -/

/-- **C10.** Every `PingRequestPacket` dispatched in the `Status` state
is answered by exactly one `PingResponsePacket` whose payload equals
the request's payload field, and the client record is unchanged. -/
theorem c10_ping_echo (bs : List Nat) (c : MinecraftClient)
    (h : c.state = .Status) :
    handle_packet 0x01 bs c =
      (c, [.pingResponse (PingRequestPacket.from_network bs).1.payload]) := by
  obtain ⟨conn, st⟩ := c
  replace h : st = ConnectionState.Status := h
  subst h
  rfl

/-- Witness for C10: the 8-byte payload 5 is echoed back. -/
theorem c10_ping_echo_witness :
    handle_packet 0x01 [0, 0, 0, 0, 0, 0, 0, 5] ⟨true, .Status⟩ =
      (⟨true, .Status⟩, [.pingResponse 5]) := by
  have h := c10_ping_echo [0, 0, 0, 0, 0, 0, 0, 5] ⟨true, .Status⟩ rfl
  simpa using h

/-! ## Claim C6 — Position packing round-trip -/

/-- **C6.** For every packed `Position` with `x`, `z` in
`[-33554432, 33554431]` and `y` in `[-2048, 2047]`, decoding the
encoded 8-byte value recovers exactly `(x, y, z)`; in particular
`Position { x: 1, y: 2, z: 3 }` encodes to the big-endian `i64`
`0x0000004000003002` and decoding that value yields `(1, 2, 3)`. -/
theorem c6_position_roundtrip (x y z : Int)
    (hx₁ : -(2^25) ≤ x) (hx₂ : x < 2^25)
    (hy₁ : -(2^11) ≤ y) (hy₂ : y < 2^11)
    (hz₁ : -(2^25) ≤ z) (hz₂ : z < 2^25) :
    Position.from_network (Position.to_network ⟨x, y, z⟩) = ⟨x, y, z⟩ ∧
    Position.to_network ⟨1, 2, 3⟩ = 0x0000004000003002 ∧
    Position.from_network 0x0000004000003002 = ⟨1, 2, 3⟩ := by
  refine ⟨?_, by decide, by decide⟩
  unfold Position.to_network Position.from_network shlWrap64 toSigned64
  simp only [Position.mk.injEq]
  refine ⟨?_, ?_, ?_⟩ <;> split_ifs <;> omega

/-- Witness for C6 at `(1, 2, 3)`. -/
theorem c6_position_roundtrip_witness :
    Position.from_network (Position.to_network ⟨1, 2, 3⟩) = ⟨1, 2, 3⟩ :=
  (c6_position_roundtrip 1 2 3 (by norm_num) (by norm_num) (by norm_num)
    (by norm_num) (by norm_num) (by norm_num)).1

/-! ## Claim C1 — framing of clientbound packets -/

/-- **C1.** The claim says `send_packet` writes exactly
`VarInt(L)` followed by `L` bytes (id VarInt + field-by-field payload),
with no extra bytes, in particular for packets with an NBT field.
`Nbt::to_network` appends its bytes directly to the underlying `Vec`
and then does `set_position(len + 1)`, one slot **past** the end, so
the next cursor write zero-fills that slot.  For a `RegistryDataPacket`
with one NBT-bearing entry (registry id `[97]`, entry id `[98]`, NBT
bytes `[10, 0]`) the id + payload encoding is the 9 bytes
`[7, 1, 97, 1, 1, 98, 1, 10, 0]` and `packet_length = 9`, but the frame
written to the socket carries one extra `0` byte after the payload,
which the length prefix does not cover. -/
theorem c1_nbt_breaks_framing :
    send_packet 0x07 registryDataExample.to_network =
      VarInt.to_network 9 ++ [7, 1, 97, 1, 1, 98, 1, 10, 0] ++ [0] := by
  have e7 : VarInt.to_network 7 = [7] := by
    simp [VarInt.to_network, toUnsigned, varnumWrite]
  have e1 : VarInt.to_network 1 = [1] := by
    simp [VarInt.to_network, toUnsigned, varnumWrite]
  have e9 : VarInt.to_network 9 = [9] := by
    simp [VarInt.to_network, toUnsigned, varnumWrite]
  have esize : VarInt.get_size_in_bytes 9 = 1 := by
    simp [VarInt.get_size_in_bytes, toUnsigned, varnumSizeLoop]
  simp [send_packet, registryDataExample, RegistryDataPacketBytes.to_network,
    RegistryEntryBytes.to_network, ByteBuf.write_vec, ByteBuf.write_string,
    ByteBuf.write_bool, ByteBuf.write_nbt, ByteBuf.write_varint, ByteBuf.write,
    ByteBuf.new_empty, e7, e1, e9, esize, rotateRightList]

/-! ## Claim C7 — compressed write below the threshold -/

theorem varnumLoopEncode_le127 (m : Nat) (h : m ≤ 127) : varnumLoopEncode m = [m] := by
  rw [varnumLoopEncode]
  simp [Nat.div_eq_of_lt (by omega : m < 128), Nat.mod_eq_of_lt (by omega : m < 128)]

theorem varnumLoopEncode_length_pos (v : Nat) : 1 ≤ (varnumLoopEncode v).length := by
  rw [varnumLoopEncode]
  split <;> simp

/-- **C7 counterexample.**  The claim promises, for *every* packet with
`len(P) < threshold`, the output shape
`outer-length VarInt ++ 00 ++ P`.  With threshold 256, packet id 0 and
127 payload bytes, `P = id ++ payload` has 128 bytes and the back-filled
outer length 129 needs two VarInt bytes; `copy_from_slice` then
overwrites the placeholder **and** the `00` data-length byte, so the
output is 130 bytes instead of the claimed 131-byte shape. -/
theorem c7_backfill_clobbers_counterexample :
    ZlibCompression.compress id 0 (List.replicate 127 0) 256 ≠
      encode_varint (((VarIntBuf.to_network 0 ++ List.replicate 127 0).length + 1 : Nat) : Int) ++
        [0] ++ (VarIntBuf.to_network 0 ++ List.replicate 127 0) := by
  have e0 : VarIntBuf.to_network 0 = [0] := by
    simp [VarIntBuf.to_network, toUnsigned, varnumLoopEncode]
  have h0 : encode_varint 0 = [0] := by simp [encode_varint, varnumLoopEncode]
  have e129 : encode_varint (129 : Int) = [129, 1] := by
    simp [encode_varint, varnumLoopEncode]
  have hL : (ZlibCompression.compress id 0 (List.replicate 127 0) 256).length = 130 := by
    simp [ZlibCompression.compress, e0, h0, e129]
  have hR : (encode_varint (((VarIntBuf.to_network 0 ++ List.replicate 127 0).length + 1 : Nat) : Int) ++
      [0] ++ (VarIntBuf.to_network 0 ++ List.replicate 127 0)).length = 131 := by
    simp [e0, e129]
  intro h
  rw [h] at hL
  rw [hL] at hR
  exact absurd hR (by norm_num)

/-- **C7 amended.** In Zlib mode, for every packet whose serialized
`(packet_id, payload)` buffer `P` satisfies `len(P) < threshold` **and
whose back-filled outer length `1 + len(P)` fits in a single VarInt
byte (`≤ 127`)**, the compressed-write output is the outer length
VarInt, the single data-length byte `0x00`, then `P` verbatim with no
Zlib blob, and the outer length equals the encoded length of everything
following it.  (For larger packets the back-fill overwrites the
data-length byte, as the counterexample shows.) -/
theorem c7_below_threshold_shape (deflate : List Nat → List Nat) (pid : Int)
    (data : List Nat) (threshold : Int)
    (hP : ((VarIntBuf.to_network pid ++ data).length : Int) < threshold)
    (hsmall : (VarIntBuf.to_network pid ++ data).length + 1 ≤ 127) :
    ZlibCompression.compress deflate pid data threshold =
      encode_varint (((VarIntBuf.to_network pid ++ data).length + 1 : Nat) : Int) ++
        [0] ++ (VarIntBuf.to_network pid ++ data) := by
  have hid : 1 ≤ (VarIntBuf.to_network pid).length := varnumLoopEncode_length_pos _
  have hPlen : (VarIntBuf.to_network pid ++ data).length =
      (VarIntBuf.to_network pid).length + data.length := List.length_append _ _
  have hdata : ¬ ((data.length : Int) ≥ threshold) := by
    rw [hPlen] at hP
    push_cast at hP ⊢
    omega
  have h0 : encode_varint 0 = [0] := by
    simp [encode_varint, varnumLoopEncode]
  have henc : encode_varint (((VarIntBuf.to_network pid ++ data).length + 1 : Nat) : Int) =
      [(VarIntBuf.to_network pid ++ data).length + 1] := by
    rw [encode_varint, Int.toNat_natCast, varnumLoopEncode_le127 _ (by omega)]
  unfold ZlibCompression.compress
  rw [if_neg hdata, h0, henc]
  simp only [List.singleton_append, List.length_cons, List.length_append]
  have harg : (VarIntBuf.to_network pid).length + 1 + data.length + 1 - (([] : List Nat).length + 1)
      = (VarIntBuf.to_network pid ++ data).length + 1 := by
    simp only [List.length_nil, List.length_append]
    omega
  rw [harg, henc]
  simp [hPlen]

/-- Witness for the amended C7: threshold 256, packet id 5, a 10-byte
payload. -/
theorem c7_below_threshold_shape_witness :
    ZlibCompression.compress id 5 [1, 2, 3, 4, 5, 6, 7, 8, 9, 10] 256 =
      encode_varint (((VarIntBuf.to_network 5 ++ [1, 2, 3, 4, 5, 6, 7, 8, 9, 10]).length + 1 : Nat) : Int) ++
        [0] ++ (VarIntBuf.to_network 5 ++ [1, 2, 3, 4, 5, 6, 7, 8, 9, 10]) := by
  have e5 : VarIntBuf.to_network 5 = [5] := by
    simp [VarIntBuf.to_network, toUnsigned, varnumLoopEncode]
  exact c7_below_threshold_shape id 5 [1, 2, 3, 4, 5, 6, 7, 8, 9, 10] 256
    (by simp [e5]) (by simp [e5])
